import Mathlib

/-!
# Tuplex code-generation callback contract (CodeDefs.h)

The header src/tuplex/core/include/physical/CodeDefs.h declares, inside
namespace tuplex::codegen, the function-pointer types through which generated
task code and the runtime call each other.  This development embeds

* the C types that occur in the header and every typedef of the header,
  as data (return type, parameter types, and the parameter names the header
  gives in a declarator or in the comment attached to the typedef);
* the runtime protocols behind the callbacks (block reading with exception
  capture, hash build), which the header only declares; these are modelled
  from the specification and marked as such.
-/

namespace tuplex.codegen

/-! ## C types occurring in CodeDefs.h -/

/-- The C types used by the typedefs of CodeDefs.h.  A pointer to T is
ptr T, a pointer to const T is constPtr T. -/
inductive CType where
  | void
  | bool
  | char
  | int8
  | int64
  | uint8
  | ptr (pointee : CType)
  | constPtr (pointee : CType)
deriving DecidableEq, Repr

/-- A function-pointer typedef: return type, parameter types in declaration
order, and the parameter names the header documents for it (declarator names
or the comment attached to the typedef; empty when the header names none). -/
structure FnPtrType where
  ret : CType
  params : List CType
  documented : List String
deriving DecidableEq, Repr

/-- Number of parameters of a function-pointer type. -/
def FnPtrType.arity (f : FnPtrType) : Nat := f.params.length

/-- Number of parameters of a given C type. -/
def FnPtrType.countOf (f : FnPtrType) (t : CType) : Nat := f.params.count t

/-- Drops the const qualifier of a pointer to const (one level). -/
def CType.unconst : CType → CType
  | .constPtr t => .ptr t
  | t => t

/-! ## The typedefs of CodeDefs.h, in source order -/

/-- Line 30: typedef uint8_t*(*reqMemory_f)(void*, int64_t, int64_t*). -/
def reqMemory_f : FnPtrType :=
  { ret := .ptr .uint8
    params := [.ptr .void, .int64, .ptr .int64]
    documented := ["userdata", "minimum requested memory", "bytes actually allocated"] }

/-- Line 43: typedef void(*exception_handler_f)(void*, int64_t, int64_t,
int64_t, uint8_t*, int64_t); names from the comment of lines 33-42. -/
def exception_handler_f : FnPtrType :=
  { ret := .void
    params := [.ptr .void, .int64, .int64, .int64, .ptr .uint8, .int64]
    documented := ["userData", "exceptionCode", "exceptionOperatorID", "rowNumber",
                   "input", "dataLength"] }

/-- Line 48: typedef int64_t(*read_block_f)(void*, const uint8_t*, int64_t,
int64_t*, int64_t*, int8_t); the comment of line 47 lists seven names, one
more than the typedef has parameters. -/
def read_block_f : FnPtrType :=
  { ret := .int64
    params := [.ptr .void, .constPtr .uint8, .int64, .ptr .int64, .ptr .int64, .int8]
    documented := ["userData", "array of globals (e.g. hashmaps)", "block", "blocksize",
                   "normalrowsout", "badrowsout", "lastRow"] }

/-- Line 53: typedef int64_t(*process_row_f)(void*, const uint8_t*, int64_t,
int64_t); the header names no parameter. -/
def process_row_f : FnPtrType :=
  { ret := .int64
    params := [.ptr .void, .constPtr .uint8, .int64, .int64]
    documented := [] }

/-- Line 60: typedef int64_t(*write_row_f)(void*, const uint8_t*, int64_t). -/
def write_row_f : FnPtrType :=
  { ret := .int64
    params := [.ptr .void, .constPtr .uint8, .int64]
    documented := ["userdata", "buffer", "size of the buffer"] }

/-- Line 66: typedef int64_t(*cells_row_f)(void*, int64_t, char **, int64_t*);
the comment of lines 62-64 lists five names, globals among them, one more than
the typedef has parameters. -/
def cells_row_f : FnPtrType :=
  { ret := .int64
    params := [.ptr .void, .int64, .ptr (.ptr .char), .ptr .int64]
    documented := ["userData", "globals", "row number", "cell start", "length of cell"] }

/-- Line 76: typedef void(*str_hash_row_f)(void*, const uint8_t* str_key,
int64_t str_key_size, bool bucketize, const uint8_t* bucket,
int64_t bucket_size). -/
def str_hash_row_f : FnPtrType :=
  { ret := .void
    params := [.ptr .void, .constPtr .uint8, .int64, .bool, .constPtr .uint8, .int64]
    documented := ["user data", "str_key", "str_key_size", "bucketize", "bucket",
                   "bucket_size"] }

/-- Line 77: typedef void(*i64_hash_row_f)(void*, int64_t int_key,
bool int_key_null, bool bucketize, const uint8_t* bucket,
int64_t bucket_size). -/
def i64_hash_row_f : FnPtrType :=
  { ret := .void
    params := [.ptr .void, .int64, .bool, .bool, .constPtr .uint8, .int64]
    documented := ["user data", "int_key", "int_key_null", "bucketize", "bucket",
                   "bucket_size"] }

/-- Line 84: typedef int64_t(*init_stage_f)(int64_t, void**, void**). -/
def init_stage_f : FnPtrType :=
  { ret := .int64
    params := [.int64, .ptr (.ptr .void), .ptr (.ptr .void)]
    documented := [] }

/-- Line 85: typedef int64_t(*release_stage_f)(). -/
def release_stage_f : FnPtrType :=
  { ret := .int64
    params := []
    documented := [] }

/-- Line 89: typedef int64_t(*resolve_f)(void*, int64_t, int64_t,
const uint8_t*, int64_t); names from the comment of line 88. -/
def resolve_f : FnPtrType :=
  { ret := .int64
    params := [.ptr .void, .int64, .int64, .constPtr .uint8, .int64]
    documented := ["userData", "rowNumber", "ExceptionCode", "inputBuffer",
                   "inputBufferSize"] }

/-- Line 95: typedef int64_t(*agg_init_f)(uint8_t**,int64_t*). -/
def agg_init_f : FnPtrType :=
  { ret := .int64
    params := [.ptr (.ptr .uint8), .ptr .int64]
    documented := ["init_val", "init_size"] }

/-- Line 100: typedef int64_t(*agg_combine_f)(uint8_t**,int64_t*,uint8_t*,
int64_t); names from the comment of line 97. -/
def agg_combine_f : FnPtrType :=
  { ret := .int64
    params := [.ptr (.ptr .uint8), .ptr .int64, .ptr .uint8, .int64]
    documented := ["valA", "sizeA", "valB", "sizeB"] }

/-- Line 106: typedef int64_t(*agg_agg_f)(uint8_t**,uint8_t*,int64_t);
names from the comment of line 102.  Line 105 notes that valA has the
in-memory format size | val with a 64-bit size. -/
def agg_agg_f : FnPtrType :=
  { ret := .int64
    params := [.ptr (.ptr .uint8), .ptr .uint8, .int64]
    documented := ["valA", "valB", "sizeB"] }

/-! ## Exception records and the fields a callback carries -/

/-- Modelled from the spec: the fields of an exception record (section 3), the
exception code, the id of the operator the failing UDF belongs to, the row
number, and the raw input given as a pointer and a length. -/
inductive RecordField where
  | exceptionCode
  | operatorID
  | rowNumber
  | rawPointer
  | rawLength
deriving DecidableEq, Repr

/-- The exception-record field a documented parameter name stands for, with
the spellings the header uses for exception_handler_f (lines 35-41) and for
resolve_f (line 88); userData and every other name carry no record field. -/
def recordField (name : String) : Option RecordField :=
  if name = "exceptionCode" ∨ name = "ExceptionCode" then some .exceptionCode
  else if name = "exceptionOperatorID" then some .operatorID
  else if name = "rowNumber" then some .rowNumber
  else if name = "input" ∨ name = "inputBuffer" then some .rawPointer
  else if name = "dataLength" ∨ name = "inputBufferSize" then some .rawLength
  else none

/-- The exception-record fields carried by a callback, in parameter order. -/
def FnPtrType.fields (f : FnPtrType) : List RecordField :=
  f.documented.filterMap recordField

/-! ## Byte buffers and hash-build callback inputs -/

/-- One byte. -/
abbrev Byte := Fin 256

/-- A byte string (a buffer together with its length). -/
abbrev Bytes := List Byte

/-- The input of one str_hash_row_f call (line 76).  A buffer argument, given
in C as a pointer with a length, is an optional byte string: none is the
nullptr that line 75 allows for key and bucket of option types. -/
structure StrHashInput where
  userData : Nat
  str_key : Option Bytes
  bucketize : Bool
  bucket : Option Bytes
deriving DecidableEq, Repr

/-- The input of one i64_hash_row_f call (line 77): the key value and its
null flag are separate parameters. -/
structure I64HashInput where
  userData : Nat
  int_key : Int
  int_key_null : Bool
  bucketize : Bool
  bucket : Option Bytes
deriving DecidableEq, Repr

/-- Modelled from the spec: a logical hash key (sections 3 and 4.7), the
reserved null key, a byte-string key or a 64-bit integer key. -/
inductive Key where
  | null
  | str (bytes : Bytes)
  | int (value : Int)
deriving DecidableEq, Repr

/-- The logical key a string-keyed call presents: nullptr is the null key. -/
def StrHashInput.key (a : StrHashInput) : Key :=
  match a.str_key with
  | none => Key.null
  | some bytes => Key.str bytes

/-- The logical key an integer-keyed call presents: the null flag decides,
whatever the key value is. -/
def I64HashInput.key (a : I64HashInput) : Key :=
  if a.int_key_null then Key.null else Key.int a.int_key

/-! ## Hash Build Engine -/

/-- Modelled from the spec: a hash table, given by the list of its
(key, bucket) entries. -/
abbrev HashTable := List (Key × Bytes)

/-- Modelled from the spec: the hash-build operation behind str_hash_row_f and
i64_hash_row_f, whose implementation is not in the header (section 4.7: if
bucketize is true the bucket for the key is extended by appending the given
bytes, if false the bucket is replaced; a key without a bucket gets one). -/
def hashBuild : HashTable → Key → Bool → Bytes → HashTable
  | [], k, _, bucket => [(k, bucket)]
  | (k', b) :: rest, k, bucketize, bucket =>
    if k' = k then (k', if bucketize then b ++ bucket else bucket) :: rest
    else (k', b) :: hashBuild rest k bucketize bucket

/-- The buckets a table holds for a key, in table order. -/
def bucketsFor (t : HashTable) (k : Key) : List Bytes :=
  (t.filter (fun e => decide (e.1 = k))).map Prod.snd

/-- One hash-build call: logical key, bucketize flag, bucket bytes. -/
structure BuildCall where
  key : Key
  bucketize : Bool
  bucket : Bytes
deriving DecidableEq, Repr

/-- The build call a string-keyed callback input stands for (a nullptr bucket
contributes no bytes). -/
def StrHashInput.call (a : StrHashInput) : BuildCall :=
  { key := a.key, bucketize := a.bucketize, bucket := a.bucket.getD [] }

/-- The build call an integer-keyed callback input stands for. -/
def I64HashInput.call (a : I64HashInput) : BuildCall :=
  { key := a.key, bucketize := a.bucketize, bucket := a.bucket.getD [] }

/-- The table after a sequence of build calls applied to a given table. -/
def buildFrom (t : HashTable) (calls : List BuildCall) : HashTable :=
  calls.foldl (fun acc c => hashBuild acc c.key c.bucketize c.bucket) t

/-- The table a sequence of build calls produces from the empty table. -/
def buildAll (calls : List BuildCall) : HashTable := buildFrom [] calls

/-! ## Block Reader, Row Processor, Exception Handler and Resolver -/

/-- C1, as stated, fails: process_row_f does not take exactly the three
arguments userdata, row pointer, row length. -/
theorem process_row_f_not_three_arguments :
    process_row_f.arity = 4 ∧
    ¬ (process_row_f.arity = 3) ∧
    ¬ (process_row_f.params = [.ptr .void, .constPtr .uint8, .int64]) := by
  decide

/-- C1, amended: process_row_f takes four arguments, the userdata pointer, a
read-only byte pointer and two 64-bit signed integers (the three arguments of
the claim followed by one more 64-bit integer), and returns a 64-bit signed
integer. -/
theorem process_row_f_signature :
    process_row_f.params = [.ptr .void, .constPtr .uint8, .int64, .int64] ∧
    process_row_f.arity = 4 ∧
    process_row_f.params.take 3 = [.ptr .void, .constPtr .uint8, .int64] ∧
    process_row_f.params.drop 3 = [.int64] ∧
    process_row_f.ret = .int64 := by
  decide

/-- C2: exception_handler_f takes exactly six arguments, in the order
userData, exceptionCode, exceptionOperatorID, rowNumber, input, dataLength,
the three numeric fields and the length being 64-bit signed integers, and
returns void; the arguments of one call carry every field of an exception
record. -/
theorem exception_handler_f_signature :
    exception_handler_f.params =
      [.ptr .void, .int64, .int64, .int64, .ptr .uint8, .int64] ∧
    exception_handler_f.arity = 6 ∧
    exception_handler_f.documented =
      ["userData", "exceptionCode", "exceptionOperatorID", "rowNumber", "input",
       "dataLength"] ∧
    exception_handler_f.ret = .void ∧
    exception_handler_f.fields =
      [.exceptionCode, .operatorID, .rowNumber, .rawPointer, .rawLength] ∧
    (∀ f : RecordField, f ∈ exception_handler_f.fields) := by
  refine ⟨by decide, by decide, by decide, by decide, by decide, ?_⟩
  intro f
  cases f <;> decide

/-- C3: resolve_f takes exactly five arguments, in the order userData,
rowNumber, ExceptionCode, read-only inputBuffer, inputBufferSize, and returns
a 64-bit signed integer; it carries the fields of the exception handler
except the operator id, with rowNumber before the exception code where the
handler has the exception code before rowNumber. -/
theorem resolve_f_signature :
    resolve_f.params = [.ptr .void, .int64, .int64, .constPtr .uint8, .int64] ∧
    resolve_f.arity = 5 ∧
    resolve_f.documented =
      ["userData", "rowNumber", "ExceptionCode", "inputBuffer", "inputBufferSize"] ∧
    resolve_f.ret = .int64 ∧
    resolve_f.fields = [.rowNumber, .exceptionCode, .rawPointer, .rawLength] ∧
    exception_handler_f.fields.erase .operatorID =
      [.exceptionCode, .rowNumber, .rawPointer, .rawLength] ∧
    RecordField.operatorID ∉ resolve_f.fields ∧
    (∀ f : RecordField, f ≠ .operatorID → (f ∈ resolve_f.fields ↔ f ∈ exception_handler_f.fields)) ∧
    resolve_f.fields.indexOf .rowNumber < resolve_f.fields.indexOf .exceptionCode ∧
    exception_handler_f.fields.indexOf .exceptionCode <
      exception_handler_f.fields.indexOf .rowNumber := by
  refine ⟨by decide, by decide, by decide, by decide, by decide, by decide, by decide,
    ?_, by decide, by decide⟩
  intro f
  cases f <;> decide

/-- C4, as stated, fails: agg_agg_f does not take four arguments and does not
have the argument shape of agg_combine_f. -/
theorem agg_agg_f_not_combine_shape :
    agg_agg_f.arity = 3 ∧
    ¬ (agg_agg_f.arity = 4) ∧
    ¬ (agg_agg_f.params = agg_combine_f.params) ∧
    ¬ (.ptr .int64 ∈ agg_agg_f.params) := by
  decide

/-- C4, amended: agg_agg_f takes three arguments, a reference to the
accumulator value pointer, the row value pointer and the row value length,
and returns a 64-bit status; this is the argument shape of agg_combine_f with
the size reference removed, and agg_agg_f has no size-reference parameter. -/
theorem agg_agg_f_signature :
    agg_agg_f.params = [.ptr (.ptr .uint8), .ptr .uint8, .int64] ∧
    agg_agg_f.arity = 3 ∧
    agg_agg_f.documented = ["valA", "valB", "sizeB"] ∧
    agg_agg_f.ret = .int64 ∧
    agg_combine_f.params = [.ptr (.ptr .uint8), .ptr .int64, .ptr .uint8, .int64] ∧
    agg_combine_f.ret = .int64 ∧
    agg_agg_f.params = agg_combine_f.params.eraseIdx 1 ∧
    agg_agg_f.countOf (.ptr .int64) = 0 := by
  decide

/-- C5, as stated, fails: the two hash-build callbacks do not both have a
null flag next to the bucketize flag (two bool parameters each); the only bool
parameter of str_hash_row_f is bucketize. -/
theorem str_hash_row_f_no_null_flag :
    i64_hash_row_f.countOf .bool = 2 ∧
    str_hash_row_f.countOf .bool = 1 ∧
    str_hash_row_f.params.indexOf .bool = str_hash_row_f.documented.indexOf "bucketize" ∧
    ¬ (i64_hash_row_f.countOf .bool = 2 ∧ str_hash_row_f.countOf .bool = 2) := by
  decide

/-- C5, amended: i64_hash_row_f takes userdata, the integer key, a null flag,
the bucketize flag, the bucket pointer and the bucket length; str_hash_row_f
takes userdata, the key pointer, the key length, the bucketize flag, the
bucket pointer and the bucket length, with no null flag (a null string key is
a nullptr key pointer); both return void.  For both key kinds an input that
presents the null key differs from every input that presents a non-null key,
and the two present different logical keys, whatever the key value. -/
theorem hash_row_null_key :
    i64_hash_row_f.params =
      [.ptr .void, .int64, .bool, .bool, .constPtr .uint8, .int64] ∧
    i64_hash_row_f.ret = .void ∧
    str_hash_row_f.params =
      [.ptr .void, .constPtr .uint8, .int64, .bool, .constPtr .uint8, .int64] ∧
    str_hash_row_f.ret = .void ∧
    str_hash_row_f.countOf .bool = 1 ∧
    (∀ a b : I64HashInput, a.int_key_null = true → b.int_key_null = false →
      a ≠ b ∧ a.key = Key.null ∧ b.key = Key.int b.int_key ∧ a.key ≠ b.key) ∧
    (∀ a b : StrHashInput, a.str_key = none → b.str_key ≠ none →
      a ≠ b ∧ a.key = Key.null ∧ a.key ≠ b.key) := by
  refine ⟨by decide, by decide, by decide, by decide, by decide, ?_, ?_⟩
  · intro a b ha hb
    have hak : a.key = Key.null := by simp [I64HashInput.key, ha]
    have hbk : b.key = Key.int b.int_key := by simp [I64HashInput.key, hb]
    refine ⟨?_, hak, hbk, ?_⟩
    · intro h
      rw [h, hb] at ha
      exact Bool.noConfusion ha
    · rw [hak, hbk]
      intro h
      exact Key.noConfusion h
  · intro a b ha hb
    have hak : a.key = Key.null := by simp [StrHashInput.key, ha]
    refine ⟨?_, hak, ?_⟩
    · intro h
      rw [h] at ha
      exact hb ha
    · rw [hak]
      cases hbk : b.str_key with
      | none => exact absurd hbk hb
      | some bytes =>
        simp [StrHashInput.key, hbk]

/-- Witness of C5: the null integer key against the integer key 0, and the
null string key against the empty string. -/
theorem hash_row_null_key_witness :
    ((⟨0, 0, true, false, none⟩ : I64HashInput) ≠ ⟨0, 0, false, false, none⟩ ∧
      (⟨0, 0, true, false, none⟩ : I64HashInput).key ≠
        (⟨0, 0, false, false, none⟩ : I64HashInput).key) ∧
    ((⟨0, none, false, none⟩ : StrHashInput) ≠ ⟨0, some [], false, none⟩ ∧
      (⟨0, none, false, none⟩ : StrHashInput).key ≠
        (⟨0, some [], false, none⟩ : StrHashInput).key) :=
  ⟨⟨(hash_row_null_key.2.2.2.2.2.1 ⟨0, 0, true, false, none⟩ ⟨0, 0, false, false, none⟩
        rfl rfl).1,
    (hash_row_null_key.2.2.2.2.2.1 ⟨0, 0, true, false, none⟩ ⟨0, 0, false, false, none⟩
        rfl rfl).2.2.2⟩,
   ⟨(hash_row_null_key.2.2.2.2.2.2 ⟨0, none, false, none⟩ ⟨0, some [], false, none⟩
        rfl (by decide)).1,
    (hash_row_null_key.2.2.2.2.2.2 ⟨0, none, false, none⟩ ⟨0, some [], false, none⟩
        rfl (by decide)).2.2⟩⟩

/-- C6, as stated, fails: init_stage_f does not have exactly one handle-array
parameter next to the stage id. -/
theorem init_stage_f_not_one_handle_array :
    init_stage_f.countOf (.ptr (.ptr .void)) = 2 ∧
    ¬ (init_stage_f.countOf (.ptr (.ptr .void)) = 1) ∧
    ¬ (init_stage_f.arity = 2) := by
  decide

/-- C6, amended: init_stage_f takes three arguments, a 64-bit integer followed
by two handle arrays (void**), and returns a 64-bit status; release_stage_f
takes no argument and returns a 64-bit status. -/
theorem init_release_stage_f_signature :
    init_stage_f.params = [.int64, .ptr (.ptr .void), .ptr (.ptr .void)] ∧
    init_stage_f.arity = 3 ∧
    init_stage_f.countOf (.ptr (.ptr .void)) = 2 ∧
    init_stage_f.ret = .int64 ∧
    release_stage_f.params = [] ∧
    release_stage_f.ret = .int64 := by
  decide

/-- C7: read_block_f takes exactly six arguments, userdata, the read-only
block pointer, the block length, the out-pointer of the normal-row count, the
out-pointer of the bad-row count and the last-block flag, and returns a 64-bit
signed integer; no parameter is a globals array. -/
theorem read_block_f_signature :
    read_block_f.params =
      [.ptr .void, .constPtr .uint8, .int64, .ptr .int64, .ptr .int64, .int8] ∧
    read_block_f.arity = 6 ∧
    read_block_f.ret = .int64 ∧
    read_block_f.countOf (.ptr (.ptr .void)) = 0 ∧
    read_block_f.countOf (.ptr .void) = 1 ∧
    read_block_f.documented.erase "array of globals (e.g. hashmaps)" =
      ["userData", "block", "blocksize", "normalrowsout", "badrowsout", "lastRow"] := by
  decide

/-! ## Exactly-once capture -/

theorem bucketsFor_hashBuild_ne (t : HashTable) (k k' : Key) (bz : Bool) (b : Bytes)
    (h : k ≠ k') : bucketsFor (hashBuild t k bz b) k' = bucketsFor t k' := by
  induction t with
  | nil => simp [hashBuild, bucketsFor, h]
  | cons e rest ih =>
    obtain ⟨ke, be⟩ := e
    unfold hashBuild
    by_cases hk : ke = k
    · subst hk
      simp [bucketsFor, h]
    · simp only [hk, if_false]
      unfold bucketsFor at ih ⊢
      by_cases hk2 : ke = k'
      · simp [List.filter_cons, hk2] at ih ⊢
        exact ih
      · simp [List.filter_cons, hk2] at ih ⊢
        exact ih

theorem bucketsFor_hashBuild_self (t : HashTable) (k : Key) (bz : Bool) (b : Bytes) :
    bucketsFor (hashBuild t k bz b) k =
      match bucketsFor t k with
      | [] => [b]
      | b0 :: more => (if bz then b0 ++ b else b) :: more := by
  induction t with
  | nil => simp [hashBuild, bucketsFor]
  | cons e rest ih =>
    obtain ⟨ke, be⟩ := e
    unfold hashBuild
    by_cases hk : ke = k
    · subst hk
      simp [bucketsFor, List.filter_cons]
    · simp only [hk, if_false]
      unfold bucketsFor at ih ⊢
      simp [List.filter_cons, hk] at ih ⊢
      exact ih

theorem hashBuild_atMostOne (t : HashTable) (k : Key) (bz : Bool) (b : Bytes)
    (hwf : ∀ k', (bucketsFor t k').length ≤ 1) :
    ∀ k', (bucketsFor (hashBuild t k bz b) k').length ≤ 1 := by
  intro k'
  by_cases h : k = k'
  · subst h
    rw [bucketsFor_hashBuild_self]
    have h1 := hwf k
    cases hb : bucketsFor t k with
    | nil => simp
    | cons b0 more =>
      rw [hb] at h1
      simpa using h1
  · rw [bucketsFor_hashBuild_ne t k k' bz b h]
    exact hwf k'

theorem buildFrom_atMostOne (calls : List BuildCall) :
    ∀ t : HashTable, (∀ k', (bucketsFor t k').length ≤ 1) →
      ∀ k', (bucketsFor (buildFrom t calls) k').length ≤ 1 := by
  induction calls with
  | nil => intro t hwf; exact hwf
  | cons c rest ih =>
    intro t hwf
    exact ih _ (hashBuild_atMostOne t c.key c.bucketize c.bucket hwf)

theorem buildFrom_other_keys (calls : List BuildCall) (k : Key) :
    ∀ t : HashTable, (∀ c ∈ calls, c.key ≠ k) →
      bucketsFor (buildFrom t calls) k = bucketsFor t k := by
  induction calls with
  | nil => intro t _; rfl
  | cons c rest ih =>
    intro t hfresh
    have hc : c.key ≠ k := hfresh c (List.mem_cons_self c rest)
    have hrest : ∀ d ∈ rest, d.key ≠ k := fun d hd => hfresh d (List.mem_cons_of_mem c hd)
    have h := ih (hashBuild t c.key c.bucketize c.bucket) hrest
    rw [bucketsFor_hashBuild_ne t c.key k c.bucketize c.bucket hc] at h
    exact h

theorem buildAll_append_two (calls : List BuildCall) (c1 c2 : BuildCall) :
    buildAll (calls ++ [c1, c2]) =
      hashBuild (hashBuild (buildAll calls) c1.key c1.bucketize c1.bucket)
        c2.key c2.bucketize c2.bucket := by
  simp [buildAll, buildFrom, List.foldl_append]

theorem buildAll_atMostOne (calls : List BuildCall) (k : Key) :
    (bucketsFor (buildAll calls) k).length ≤ 1 :=
  buildFrom_atMostOne calls [] (fun k' => by simp [bucketsFor]) k

theorem buildAll_two_replace (calls : List BuildCall) (K : Key) (B1 B2 : Bytes) :
    bucketsFor (buildAll (calls ++ [⟨K, false, B1⟩, ⟨K, false, B2⟩])) K = [B2] := by
  have hone := buildAll_atMostOne calls K
  rw [buildAll_append_two, bucketsFor_hashBuild_self, bucketsFor_hashBuild_self]
  cases hb : bucketsFor (buildAll calls) K with
  | nil => simp
  | cons b0 more =>
    rw [hb] at hone
    have hm : more = [] := by
      cases more with
      | nil => rfl
      | cons x xs => simp at hone
    subst hm
    simp

theorem buildAll_two_append (calls : List BuildCall) (K : Key) (B1 B2 : Bytes) :
    bucketsFor (buildAll (calls ++ [⟨K, true, B1⟩, ⟨K, true, B2⟩])) K =
      [(bucketsFor (buildAll calls) K).head?.getD [] ++ B1 ++ B2] := by
  have hone := buildAll_atMostOne calls K
  rw [buildAll_append_two, bucketsFor_hashBuild_self, bucketsFor_hashBuild_self]
  cases hb : bucketsFor (buildAll calls) K with
  | nil => simp
  | cons b0 more =>
    rw [hb] at hone
    have hm : more = [] := by
      cases more with
      | nil => rfl
      | cons x xs => simp at hone
    subst hm
    simp

theorem buildAll_two_append_fresh (calls : List BuildCall) (K : Key) (B1 B2 : Bytes)
    (hfresh : ∀ c ∈ calls, c.key ≠ K) :
    bucketsFor (buildAll (calls ++ [⟨K, true, B1⟩, ⟨K, true, B2⟩])) K = [B1 ++ B2] := by
  rw [buildAll_two_append]
  have h0 : bucketsFor (buildAll calls) K = [] := by
    unfold buildAll
    rw [buildFrom_other_keys calls K [] hfresh]
    rfl
  rw [h0]
  simp

/-- C10: for every key K and all byte strings B1 and B2, after two consecutive
hash-build calls for K with buckets B1 then B2 the table holds exactly one
bucket for K, equal to the concatenation of B1 and B2 when both calls pass
bucketize true and equal to B2 when both pass bucketize false; this holds for
the table the two calls build and after any earlier builds for other keys.
The replace result holds after any earlier builds at all, and appending after
an earlier build for K keeps the bucket K had in front of B1 and B2. -/
theorem hash_build_twice (calls : List BuildCall) (K : Key) (B1 B2 : Bytes) :
    bucketsFor (buildAll [⟨K, true, B1⟩, ⟨K, true, B2⟩]) K = [B1 ++ B2] ∧
    bucketsFor (buildAll [⟨K, false, B1⟩, ⟨K, false, B2⟩]) K = [B2] ∧
    ((∀ c ∈ calls, c.key ≠ K) →
      bucketsFor (buildAll (calls ++ [⟨K, true, B1⟩, ⟨K, true, B2⟩])) K = [B1 ++ B2] ∧
      bucketsFor (buildAll (calls ++ [⟨K, false, B1⟩, ⟨K, false, B2⟩])) K = [B2]) ∧
    bucketsFor (buildAll (calls ++ [⟨K, false, B1⟩, ⟨K, false, B2⟩])) K = [B2] ∧
    bucketsFor (buildAll (calls ++ [⟨K, true, B1⟩, ⟨K, true, B2⟩])) K =
      [(bucketsFor (buildAll calls) K).head?.getD [] ++ B1 ++ B2] := by
  refine ⟨?_, ?_, ?_, buildAll_two_replace calls K B1 B2, buildAll_two_append calls K B1 B2⟩
  · exact buildAll_two_append_fresh [] K B1 B2 (fun c hc => absurd hc (List.not_mem_nil c))
  · exact buildAll_two_replace [] K B1 B2
  · intro hfresh
    exact ⟨buildAll_two_append_fresh calls K B1 B2 hfresh, buildAll_two_replace calls K B1 B2⟩

/-- Witness of C10: the null key, presented by an integer-keyed call with key
value 0 and the null flag set, built twice after a build for the integer
key 0. -/
theorem hash_build_twice_witness :
    (∀ c ∈ [(⟨Key.int 0, true, [9]⟩ : BuildCall)], c.key ≠ Key.null) ∧
    (⟨7, 0, true, true, some [1, 2]⟩ : I64HashInput).call = ⟨Key.null, true, [1, 2]⟩ ∧
    bucketsFor (buildAll ([(⟨Key.int 0, true, [9]⟩ : BuildCall)] ++
      [⟨Key.null, true, [1, 2]⟩, ⟨Key.null, true, [3]⟩])) Key.null = [[1, 2] ++ [3]] ∧
    bucketsFor (buildAll ([(⟨Key.int 0, true, [9]⟩ : BuildCall)] ++
      [⟨Key.null, false, [1, 2]⟩, ⟨Key.null, false, [3]⟩])) Key.null = [[3]] :=
  ⟨by decide, by decide,
   ((hash_build_twice [⟨Key.int 0, true, [9]⟩] Key.null [1, 2] [3]).2.2.1 (by decide)).1,
   ((hash_build_twice [⟨Key.int 0, true, [9]⟩] Key.null [1, 2] [3]).2.2.1 (by decide)).2⟩

end tuplex.codegen
